import Mathlib

/-!
Shallow embedding of the civic-issue reporting application:
the REST route handlers in `src/app/api/[[...path]]/route.js`,
the admin update flow (`handleUpdateIssue`), and the admin map
aggregation in `src/components/admin/AdminMap.js`
(`extractCityFromLocation`, `processAreaData`, `getAreaColor`).

Conventions of the embedding:
* the issues table is a `List Issue` with `id TEXT PRIMARY KEY` (the
  schema of the setup scripts); a supabase `insert` appends when the
  inserted id is fresh and fails with a unique violation otherwise,
  an `update ... eq id` maps over the list, `select().single()`
  succeeds exactly when the filtered result has one row;
* JavaScript string truthiness (`undefined`/`null`/`""` are falsy)
  is `truthy : Option String → Bool`;
* timestamps are `Nat`; the schema defaults `created_at` and
  `updated_at` to the insert time, and only an explicit payload
  field changes them afterwards;
* `Date.now()` and the random id suffix are explicit parameters.
-/

namespace CivicReporter

/-- Coordinate pair stored on an issue row (`coordinates JSONB`).
Only presence/absence matters to the verified properties, so the
components are integers. -/
structure Coordinates where
  lat : Int
  lng : Int
deriving DecidableEq, Repr

/-- One row of the `issues` table (schema from the setup scripts:
`id, user_id, description, category, location, coordinates,
image_url, status, assigned_department, admin_remarks,
created_at, updated_at`). -/
structure Issue where
  id : String
  user_id : String
  description : String
  category : String
  location : String
  coordinates : Option Coordinates
  image_url : Option String
  status : String
  assigned_department : Option String
  admin_remarks : Option String
  created_at : Nat
  updated_at : Nat
deriving DecidableEq, Repr

/-- JavaScript truthiness for an optional string field:
`undefined`/`null` and the empty string are falsy. -/
def truthy : Option String → Bool
  | none => false
  | some s => s ≠ ""

/-- A JSON route response: HTTP status code, optional `{error}` body,
and the issue row returned on success. -/
structure ApiResponse where
  code : Nat
  error : Option String
  issue : Option Issue
deriving DecidableEq, Repr

/-- Request body accepted by `POST /api/issues`
(destructured as `{ id, user_id, description, category, location,
coordinates, image_url }`). -/
structure PostIssueBody where
  id : Option String
  user_id : Option String
  description : Option String
  category : Option String
  location : Option String
  coordinates : Option Coordinates
  image_url : Option String
deriving DecidableEq, Repr

/-- Server-side identifier:
`` `CIV-${Date.now()}-${Math.random().toString(36).substr(2,5).toUpperCase()}` ``. -/
def generatedId (now : Nat) (rand : String) : String :=
  "CIV-" ++ toString now ++ "-" ++ rand

/-- The identifier actually inserted: `id: id || generatedId`
(the client id wins whenever it is truthy). -/
def chosenId (bodyId : Option String) (now : Nat) (rand : String) : String :=
  match bodyId with
  | none => generatedId now rand
  | some s => if s ≠ "" then s else generatedId now rand

/-- Fixed 400 message of the issue-creation route. -/
def missingFieldsMsg : String :=
  "Missing required fields: description, category, location, user_id"

/-- The row inserted by `POST /api/issues`: the insert payload plus the
schema defaults (`status` is set explicitly by the route; the admin
fields stay null; both timestamps default to the insert time). -/
def newIssueOf (body : PostIssueBody) (now : Nat) (rand : String) : Issue :=
  { id := chosenId body.id now rand
    user_id := body.user_id.getD ""
    description := body.description.getD ""
    category := body.category.getD ""
    location := body.location.getD ""
    coordinates := body.coordinates
    image_url := body.image_url
    status := "Submitted"
    assigned_department := none
    admin_remarks := none
    created_at := now
    updated_at := now }

/-- `POST /api/issues` (route.js lines 196-234): reject with 400 when
`!description || !category || !location || !user_id`, otherwise insert
one row with `status: 'Submitted'` and answer 201 with the row. The
`issues` table declares `id TEXT PRIMARY KEY` (setup scripts), so an
insert whose id is already stored violates the unique constraint: the
database rejects it, nothing is persisted, and the error branch
(route.js lines 228-231) answers 500 `'Failed to create issue'`. -/
def postIssues (db : List Issue) (body : PostIssueBody) (now : Nat) (rand : String) :
    ApiResponse × List Issue :=
  if !truthy body.description || !truthy body.category ||
     !truthy body.location || !truthy body.user_id then
    ({ code := 400, error := some missingFieldsMsg, issue := none }, db)
  else
    let newIssue := newIssueOf body now rand
    if db.any (fun i => i.id == newIssue.id) then
      ({ code := 500, error := some "Failed to create issue", issue := none }, db)
    else
      ({ code := 201, error := none, issue := some newIssue }, db ++ [newIssue])

/-- `GET /api/issues/:id` (route.js lines 139-160): `eq('id', issueId)`
then `.single()`; any error (zero or several rows) answers 404 with
`{error: 'Issue not found'}`. -/
def getIssueById (db : List Issue) (issueId : String) : ApiResponse :=
  match db.filter (fun i => i.id == issueId) with
  | [i] => { code := 200, error := none, issue := some i }
  | _ => { code := 404, error := some "Issue not found", issue := none }

/-- Payload of `GET /api/stats` (route.js lines 92-111). -/
structure Stats where
  total : Nat
  submitted : Nat
  acknowledged : Nat
  resolved : Nat
  active : Nat
  in_progress : Nat
deriving DecidableEq, Repr

/-- `GET /api/stats`: fetch every status and count per bucket. -/
def getStats (db : List Issue) : Stats :=
  { total := db.length
    submitted := (db.filter (fun i => i.status == "Submitted")).length
    acknowledged := (db.filter (fun i => i.status == "Acknowledged")).length
    resolved := (db.filter (fun i => i.status == "Resolved")).length
    active := (db.filter (fun i => i.status == "Submitted")).length
    in_progress := (db.filter (fun i => i.status == "Acknowledged")).length }

/-- Request body of `PUT /api/issues/:id`; the handler destructures only
`{ status }`, every other field of the JSON body is ignored. -/
structure PutIssueBody where
  status : Option String
  assigned_department : Option String
  admin_remarks : Option String
deriving DecidableEq, Repr

/-- The allow-list `['Submitted', 'Acknowledged', 'Resolved']`. -/
def validStatuses : List String := ["Submitted", "Acknowledged", "Resolved"]

/-- The 400 message produced by
`` `Invalid status. Must be one of: ${validStatuses.join(', ')}` ``. -/
def invalidStatusMsg : String :=
  "Invalid status. Must be one of: Submitted, Acknowledged, Resolved"

/-- `PUT /api/issues/:id` (route.js lines 286-316): 400 on falsy status,
400 on a status outside the allow-list, otherwise
`update({ status }).eq('id', issueId).select().single()` — the update
payload contains only `status`. -/
def putIssue (db : List Issue) (issueId : String) (body : PutIssueBody) :
    ApiResponse × List Issue :=
  if !truthy body.status then
    ({ code := 400, error := some "Status is required", issue := none }, db)
  else
    let status := body.status.getD ""
    if !validStatuses.contains status then
      ({ code := 400, error := some invalidStatusMsg, issue := none }, db)
    else
      let updated := db.map (fun i => if i.id == issueId then { i with status := status } else i)
      match updated.filter (fun i => i.id == issueId) with
      | [i] => ({ code := 200, error := none, issue := some i }, updated)
      | _ => ({ code := 500, error := some "Failed to update issue", issue := none }, updated)

/-- Edit-dialog form of the admin issue management view
(`status`, `assigned_department`, `admin_remarks`). -/
structure EditForm where
  status : String
  assigned_department : String
  admin_remarks : String
deriving DecidableEq, Repr

/-- `handleUpdateIssue` of the admin issue management component:
`update({ status, assigned_department, admin_remarks, updated_at:
new Date().toISOString() }).eq('id', selectedIssue.id)` — all four
fields in one write, with no validation of the status value. -/
def handleUpdateIssue (db : List Issue) (selectedId : String) (form : EditForm) (now : Nat) :
    List Issue :=
  db.map (fun i =>
    if i.id == selectedId then
      { i with
          status := form.status
          assigned_department := some form.assigned_department
          admin_remarks := some form.admin_remarks
          updated_at := now }
    else i)

/-- Character-list worker of `splitOnComma`: accumulate the current
segment (reversed) and cut at every `','`, like JavaScript
`String.prototype.split(',')`. -/
def splitOnCommaAux : List Char → List Char → List (List Char)
  | [], cur => [cur.reverse]
  | c :: rest, cur =>
    if c = ',' then cur.reverse :: splitOnCommaAux rest []
    else splitOnCommaAux rest (c :: cur)

/-- JavaScript `location.split(',')`; always produces at least one
segment, and `"".split(',')` is `[""]`. -/
def splitOnComma (s : String) : List String :=
  (splitOnCommaAux s.toList []).map List.asString

/-- Whitespace stripped by JavaScript `trim()` (the characters that
occur in this codebase's location strings). -/
def isSpaceChar (c : Char) : Bool :=
  c = ' ' || c = '\t' || c = '\n' || c = '\r'

/-- JavaScript `s.trim()`. -/
def trimString (s : String) : String :=
  (((s.toList.dropWhile isSpaceChar).reverse.dropWhile isSpaceChar).reverse).asString

/-- JavaScript `s.substring(0, n)`. -/
def takePrefix (s : String) (n : Nat) : String :=
  (s.toList.take n).asString

/-- Fallback of `extractCityFromLocation`:
`parts[0]?.trim().substring(0, 20) || 'Unknown'`. -/
def locationFallback (parts : List String) : String :=
  let f := takePrefix (trimString (parts.headD "")) 20
  if f == "" then "Unknown" else f

/-- `extractCityFromLocation` (AdminMap.js lines 85-100): split the
location on commas; when there are at least two parts and the trimmed
second-to-last part has length greater than 2, use it; otherwise fall
back to the first 20 characters of the trimmed first part (or
`'Unknown'`); a falsy location gives `'Unknown'`. -/
def extractCityFromLocation (location : String) : String :=
  if location == "" then "Unknown"
  else
    let parts := splitOnComma location
    if parts.length > 1 then
      let cityCandidate := trimString (parts.getD (parts.length - 2) "")
      if cityCandidate != "" && cityCandidate.length > 2 then cityCandidate
      else locationFallback parts
    else locationFallback parts

/-- Per-area accumulator of `processAreaData`
(`{ area, total, submitted, acknowledged, resolved, coordinates, issues }`). -/
structure AreaStats where
  area : String
  total : Nat
  submitted : Nat
  acknowledged : Nat
  resolved : Nat
  coordinates : Option Coordinates
  issues : List Issue
deriving DecidableEq, Repr

/-- Fresh map entry: counts start at zero and the coordinates are
`issue.coordinates || null`. -/
def newAreaStats (area : String) (coords : Option Coordinates) : AreaStats :=
  { area := area, total := 0, submitted := 0, acknowledged := 0, resolved := 0,
    coordinates := coords, issues := [] }

/-- Body of the `issues.forEach` loop for one bucket: bump `total`,
record the issue, adopt the issue's coordinates when the bucket has
none yet, and bump the counter selected by the status `switch`. -/
def bumpAreaStats (s : AreaStats) (issue : Issue) : AreaStats :=
  let s1 := { s with total := s.total + 1, issues := s.issues ++ [issue] }
  let s2 := if s1.coordinates.isNone && issue.coordinates.isSome then
              { s1 with coordinates := issue.coordinates }
            else s1
  if issue.status == "Submitted" then { s2 with submitted := s2.submitted + 1 }
  else if issue.status == "Acknowledged" then { s2 with acknowledged := s2.acknowledged + 1 }
  else if issue.status == "Resolved" then { s2 with resolved := s2.resolved + 1 }
  else s2

/-- One `forEach` step of `processAreaData`: create the bucket keyed by
`extractCityFromLocation(issue.location)` when absent, then update it.
The `Map` is an insertion-ordered association list. -/
def insertIssue (acc : List AreaStats) (issue : Issue) : List AreaStats :=
  let area := extractCityFromLocation issue.location
  if acc.any (fun s => s.area == area) then
    acc.map (fun s => if s.area == area then bumpAreaStats s issue else s)
  else
    acc ++ [bumpAreaStats (newAreaStats area issue.coordinates) issue]

/-- An element of the final `areaDataArray`: the bucket together with
its three percentage fields. -/
structure AreaData where
  stats : AreaStats
  submittedPercentage : ℚ
  acknowledgedPercentage : ℚ
  resolvedPercentage : ℚ
deriving DecidableEq, Repr

/-- `total > 0 ? (count / total) * 100 : 0`. -/
def percentage (count total : Nat) : ℚ :=
  if total > 0 then ((count : ℚ) / (total : ℚ)) * 100 else 0

/-- The `.map` stage of `processAreaData` computing the percentages. -/
def toAreaData (s : AreaStats) : AreaData :=
  { stats := s
    submittedPercentage := percentage s.submitted s.total
    acknowledgedPercentage := percentage s.acknowledged s.total
    resolvedPercentage := percentage s.resolved s.total }

/-- `processAreaData` (AdminMap.js lines 102-160): group every issue by
area (the loop runs over `issues`, not the status-filtered list),
compute percentages, and keep only areas that have coordinates. -/
def processAreaData (issues : List Issue) : List AreaData :=
  ((issues.foldl insertIssue []).map toAreaData).filter
    (fun a => a.stats.coordinates.isSome)

/-- `getStatusColor` of AdminMap.js. -/
def getStatusColor (status : String) : String :=
  if status == "Submitted" then "#fbbf24"
  else if status == "Acknowledged" then "#3b82f6"
  else if status == "Resolved" then "#10b981"
  else "#6b7280"

/-- `getAreaColor` (AdminMap.js lines 183-193): in the `'all'` view the
marker color comes from the resolution rate — strictly above 70 green,
strictly above 40 yellow, otherwise red. -/
def getAreaColor (area : AreaData) (selectedStatus : String) : String :=
  if selectedStatus == "all" then
    let resolutionRate := area.resolvedPercentage
    if resolutionRate > 70 then "#10b981"
    else if resolutionRate > 40 then "#fbbf24"
    else "#ef4444"
  else getStatusColor selectedStatus

/-- Concrete stored issue used by the concrete checks: an issue that an
admin has already triaged (department and remarks set, timestamps equal). -/
def sampleIssue : Issue :=
  { id := "CIV-1"
    user_id := "U1"
    description := "pothole on 5th"
    category := "Pothole"
    location := "5th Ave, Springfield, IL"
    coordinates := some ⟨28, 77⟩
    image_url := none
    status := "Submitted"
    assigned_department := some "Water Department"
    admin_remarks := some "old remark"
    created_at := 100
    updated_at := 100 }

/-- Concrete issue with coordinates, for the aggregation checks. -/
def issueWithCoords : Issue :=
  { id := "A1"
    user_id := "U1"
    description := "street light broken"
    category := "Lighting"
    location := "Main St, Springfield, IL"
    coordinates := some ⟨28, 77⟩
    image_url := none
    status := "Submitted"
    assigned_department := none
    admin_remarks := none
    created_at := 1
    updated_at := 1 }

/-- Same area as `issueWithCoords` but without coordinates. -/
def issueNoCoords : Issue :=
  { issueWithCoords with id := "A2", coordinates := none, status := "Resolved" }

/-- First of five issues in one area (see `fortyPercentIssues`). -/
def issueF1 : Issue := { issueWithCoords with id := "F1", status := "Resolved" }

/-- Five issues in one area, two of them resolved: the area's resolution
rate is exactly 40%. -/
def fortyPercentIssues : List Issue :=
  [issueF1,
   { issueWithCoords with id := "F2", status := "Resolved" },
   { issueWithCoords with id := "F3", status := "Submitted" },
   { issueWithCoords with id := "F4", status := "Submitted" },
   { issueWithCoords with id := "F5", status := "Submitted" }]

/-- The single bucket that `processAreaData` builds from
`fortyPercentIssues`. -/
def fortyPercentStats : AreaStats :=
  { area := "Springfield"
    total := 5
    submitted := 3
    acknowledged := 0
    resolved := 2
    coordinates := some ⟨28, 77⟩
    issues := fortyPercentIssues }

/-- An area sitting exactly at a 70% resolution rate. -/
def areaAtSeventy : AreaData :=
  { stats :=
      { area := "Springfield"
        total := 10
        submitted := 3
        acknowledged := 0
        resolved := 7
        coordinates := some ⟨28, 77⟩
        issues := [] }
    submittedPercentage := 30
    acknowledgedPercentage := 0
    resolvedPercentage := 70 }

/-- A `PUT` body carrying a status outside the allow-list. -/
def invalidPutBody : PutIssueBody :=
  { status := some "Done"
    assigned_department := none
    admin_remarks := none }

/-- A `POST /issues` body with no location. -/
def missingLocationBody : PostIssueBody :=
  { id := none
    user_id := some "U1"
    description := some "pothole"
    category := some "Pothole"
    location := none
    coordinates := none
    image_url := none }

/-- The end-to-end example body of the specification. -/
def potholeBody : PostIssueBody :=
  { id := none
    user_id := some "U1"
    description := some "pothole on 5th"
    category := some "Pothole"
    location := some "5th Ave, Springfield, IL"
    coordinates := none
    image_url := none }

/-- A creation body whose client-chosen id collides with
`sampleIssue`. -/
def collidingBody : PostIssueBody :=
  { id := some "CIV-1"
    user_id := some "U2"
    description := some "another report"
    category := some "Garbage"
    location := some "5th Ave, Springfield, IL"
    coordinates := none
    image_url := none }

/-- An admin-style `PUT` payload: new status, department and remarks. -/
def fullUpdateBody : PutIssueBody :=
  { status := some "Resolved"
    assigned_department := some "Traffic Department"
    admin_remarks := some "new remark" }

/-- An admin edit form carrying a status outside the allow-list. -/
def bogusEditForm : EditForm :=
  { status := "Bogus"
    assigned_department := "Traffic Department"
    admin_remarks := "new remark" }

/-! ## Theorems -/

/-- C2: a `PUT /issues/{id}` whose status is missing or outside
{Submitted, Acknowledged, Resolved} answers HTTP 400 with a JSON error
body, and the database update is never issued. -/
theorem put_invalid_status_rejected (db : List Issue) (issueId : String)
    (body : PutIssueBody)
    (h : body.status = none ∨ ∃ s, body.status = some s ∧ s ∉ validStatuses) :
    (putIssue db issueId body).1.code = 400 ∧
    (putIssue db issueId body).1.error.isSome = true ∧
    (putIssue db issueId body).2 = db := by
  rcases h with h | ⟨s, hs, hmem⟩
  · simp [putIssue, h, truthy]
  · by_cases he : s = ""
    · subst he
      simp [putIssue, hs, truthy]
    · simp [putIssue, hs, truthy, he, hmem]

/-- Closed instance of `put_invalid_status_rejected`: the status value
`"Done"` is rejected and the store is untouched. -/
theorem put_invalid_status_rejected_witness :
    (putIssue [sampleIssue] "CIV-1" invalidPutBody).1.code = 400 ∧
    (putIssue [sampleIssue] "CIV-1" invalidPutBody).1.error.isSome = true ∧
    (putIssue [sampleIssue] "CIV-1" invalidPutBody).2 = [sampleIssue] :=
  put_invalid_status_rejected [sampleIssue] "CIV-1" invalidPutBody
    (Or.inr ⟨"Done", rfl, by decide⟩)

/-- C3: a `POST /issues` missing description, category, location or
user_id answers HTTP 400 with the fixed error message, and no row is
inserted. -/
theorem post_missing_field_rejected (db : List Issue) (body : PostIssueBody)
    (now : Nat) (rand : String)
    (h : body.description = none ∨ body.category = none ∨
         body.location = none ∨ body.user_id = none) :
    (postIssues db body now rand).1 =
      { code := 400, error := some missingFieldsMsg, issue := none } ∧
    (postIssues db body now rand).2 = db := by
  rcases h with h | h | h | h <;> simp [postIssues, h, truthy]

/-- Closed instance of `post_missing_field_rejected`: a body without a
location is rejected and nothing is inserted. -/
theorem post_missing_field_rejected_witness :
    (postIssues [] missingLocationBody 5 "AB0DE").1 =
      { code := 400, error := some missingFieldsMsg, issue := none } ∧
    (postIssues [] missingLocationBody 5 "AB0DE").2 = [] :=
  post_missing_field_rejected [] missingLocationBody 5 "AB0DE"
    (Or.inr (Or.inr (Or.inl rfl)))

/-- C9: a `GET /issues/{id}` for an identifier no stored issue has
answers HTTP 404 with a JSON error body. -/
theorem get_unknown_issue_not_found (db : List Issue) (issueId : String)
    (h : ∀ i ∈ db, i.id ≠ issueId) :
    getIssueById db issueId =
      { code := 404, error := some "Issue not found", issue := none } := by
  have hf : db.filter (fun i => i.id == issueId) = [] := by
    rw [List.filter_eq_nil_iff]
    intro i hi
    simp [h i hi]
  simp [getIssueById, hf]

/-- Closed instance of `get_unknown_issue_not_found` at an unknown id. -/
theorem get_unknown_issue_not_found_witness :
    getIssueById [sampleIssue] "CIV-404" =
      { code := 404, error := some "Issue not found", issue := none } :=
  get_unknown_issue_not_found [sampleIssue] "CIV-404" (by decide)

/-- Sum of the three per-status filters over a list of issues whose
statuses all lie in the allow-list. -/
theorem filter_three_statuses_length :
    ∀ (db : List Issue), (∀ i ∈ db, i.status ∈ validStatuses) →
      (db.filter (fun i => i.status == "Submitted")).length +
      (db.filter (fun i => i.status == "Acknowledged")).length +
      (db.filter (fun i => i.status == "Resolved")).length = db.length
  | [], _ => by simp
  | i :: t, h => by
    have hi : i.status ∈ validStatuses := h i (List.mem_cons_self i t)
    have ih := filter_three_statuses_length t (fun j hj => h j (List.mem_cons_of_mem i hj))
    simp only [validStatuses, List.mem_cons, List.mem_singleton, List.not_mem_nil] at hi
    rcases hi with hi | hi | hi | hi <;>
      simp_all [List.filter_cons] <;> omega

/-- C6: `/stats` reports, per status, exactly the number of stored
issues with that status, `total` is the number of issues, and the
three counters sum to the total whenever every status is in the
allow-list. -/
theorem stats_counts_correct (db : List Issue)
    (h : ∀ i ∈ db, i.status ∈ validStatuses) :
    (getStats db).total = db.length ∧
    (getStats db).submitted = db.countP (fun i => i.status == "Submitted") ∧
    (getStats db).acknowledged = db.countP (fun i => i.status == "Acknowledged") ∧
    (getStats db).resolved = db.countP (fun i => i.status == "Resolved") ∧
    (getStats db).submitted + (getStats db).acknowledged + (getStats db).resolved
      = (getStats db).total := by
  refine ⟨rfl, ?_, ?_, ?_, ?_⟩
  · simp [getStats, List.countP_eq_length_filter]
  · simp [getStats, List.countP_eq_length_filter]
  · simp [getStats, List.countP_eq_length_filter]
  · exact filter_three_statuses_length db h

/-- Closed instance of `stats_counts_correct` on a two-issue store. -/
theorem stats_counts_correct_witness :
    (getStats [issueWithCoords, issueNoCoords]).total = 2 ∧
    (getStats [issueWithCoords, issueNoCoords]).submitted = 1 ∧
    (getStats [issueWithCoords, issueNoCoords]).resolved = 1 ∧
    (getStats [issueWithCoords, issueNoCoords]).submitted +
      (getStats [issueWithCoords, issueNoCoords]).acknowledged +
      (getStats [issueWithCoords, issueNoCoords]).resolved
      = (getStats [issueWithCoords, issueNoCoords]).total := by
  have h := stats_counts_correct [issueWithCoords, issueNoCoords] (by decide)
  exact ⟨by decide, by decide, by decide, h.2.2.2.2⟩

/-- When all four required fields are truthy and the inserted id is
fresh, `POST /issues` takes the successful insert branch: 201, the new
row in the response, the new row appended. -/
theorem postIssues_success (db : List Issue) (body : PostIssueBody)
    (now : Nat) (rand : String)
    (hd : truthy body.description = true) (hc : truthy body.category = true)
    (hl : truthy body.location = true) (hu : truthy body.user_id = true)
    (hfresh : ∀ i ∈ db, i.id ≠ chosenId body.id now rand) :
    postIssues db body now rand =
      ({ code := 201, error := none, issue := some (newIssueOf body now rand) },
        db ++ [newIssueOf body now rand]) := by
  have hany : db.any (fun i => i.id == (newIssueOf body now rand).id) = false := by
    rw [List.any_eq_false]
    intro i hi
    simp only [newIssueOf, beq_iff_eq]
    exact hfresh i hi
  simp [postIssues, hd, hc, hl, hu, hany]

/-- The generated identifier starts with `CIV-`, so it is never empty. -/
theorem generatedId_ne_empty (now : Nat) (rand : String) :
    generatedId now rand ≠ "" := by
  intro h
  have hdata := congrArg String.data h
  simp [generatedId, String.data_append] at hdata

/-- Whether client-chosen or generated, the inserted id is non-empty. -/
theorem chosenId_ne_empty (bodyId : Option String) (now : Nat) (rand : String) :
    chosenId bodyId now rand ≠ "" := by
  match bodyId with
  | none => exact generatedId_ne_empty now rand
  | some s =>
    by_cases he : s = ""
    · simp [chosenId, he]
      exact generatedId_ne_empty now rand
    · simp [chosenId, he]

/-- C7: a `POST /issues` with all required fields answers 201 with a
non-empty identifier and status `"Submitted"`, and a subsequent GET of
that identifier returns the same description and that status. -/
theorem post_issue_created_then_readable (db : List Issue) (body : PostIssueBody)
    (now : Nat) (rand : String)
    (hd : truthy body.description = true) (hc : truthy body.category = true)
    (hl : truthy body.location = true) (hu : truthy body.user_id = true)
    (hfresh : ∀ i ∈ db, i.id ≠ chosenId body.id now rand) :
    (postIssues db body now rand).1.code = 201 ∧
    (postIssues db body now rand).1.issue = some (newIssueOf body now rand) ∧
    (newIssueOf body now rand).id ≠ "" ∧
    (newIssueOf body now rand).status = "Submitted" ∧
    (newIssueOf body now rand).description = body.description.getD "" ∧
    getIssueById (postIssues db body now rand).2 (newIssueOf body now rand).id =
      { code := 200, error := none, issue := some (newIssueOf body now rand) } := by
  have hpost := postIssues_success db body now rand hd hc hl hu hfresh
  have hid : (newIssueOf body now rand).id = chosenId body.id now rand := rfl
  refine ⟨by rw [hpost], by rw [hpost], ?_, rfl, rfl, ?_⟩
  · rw [hid]
    exact chosenId_ne_empty body.id now rand
  · rw [hpost]
    have hdb : db.filter (fun i => i.id == (newIssueOf body now rand).id) = [] := by
      rw [List.filter_eq_nil_iff]
      intro i hi
      simp [hid, hfresh i hi]
    simp [getIssueById, List.filter_append, hdb]

/-- Closed instance of `post_issue_created_then_readable`: the
end-to-end example of the specification (pothole on 5th). -/
theorem post_issue_created_then_readable_witness :
    (postIssues [] potholeBody 5 "AB0DE").1.code = 201 ∧
    (postIssues [] potholeBody 5 "AB0DE").1.issue = some (newIssueOf potholeBody 5 "AB0DE") ∧
    (newIssueOf potholeBody 5 "AB0DE").id ≠ "" ∧
    (newIssueOf potholeBody 5 "AB0DE").status = "Submitted" ∧
    (newIssueOf potholeBody 5 "AB0DE").description = (potholeBody.description).getD "" ∧
    getIssueById (postIssues [] potholeBody 5 "AB0DE").2 (newIssueOf potholeBody 5 "AB0DE").id =
      { code := 200, error := none, issue := some (newIssueOf potholeBody 5 "AB0DE") } :=
  post_issue_created_then_readable [] potholeBody 5 "AB0DE"
    (by decide) (by decide) (by decide) (by decide) (by simp)

/-- C10 counterexample: a `POST` that reuses the already-stored id
`"CIV-1"` does not persist an issue under that identifier: the
primary-key violation makes the insert fail, the route answers 500
`'Failed to create issue'`, and the store is unchanged — so a caller
cannot actually collide with an existing identifier. -/
theorem post_collision_counterexample :
    (postIssues [sampleIssue] collidingBody 5 "AB0DE").1.code = 500 ∧
    (postIssues [sampleIssue] collidingBody 5 "AB0DE").1.error
      = some "Failed to create issue" ∧
    (postIssues [sampleIssue] collidingBody 5 "AB0DE").2 = [sampleIssue] := by
  decide

/-- C10 (amended): with all required fields present, the route chooses
the client-supplied `id` whenever that is truthy and falls back to the
generated `CIV-<timestamp>-<random>` id only when the body id is
absent or empty; when the chosen id is fresh the row is persisted with
exactly that id, but when it is already stored the primary key rejects
the insert — the route answers 500 and nothing is persisted, so a
caller can choose arbitrary fresh identifiers but cannot create a
colliding one. -/
theorem post_client_id_wins_unless_collision (db : List Issue)
    (body : PostIssueBody) (now : Nat) (rand : String)
    (hd : truthy body.description = true) (hc : truthy body.category = true)
    (hl : truthy body.location = true) (hu : truthy body.user_id = true) :
    ((∀ i ∈ db, i.id ≠ chosenId body.id now rand) →
      (postIssues db body now rand).2 = db ++ [newIssueOf body now rand] ∧
      (∀ s, body.id = some s → s ≠ "" → (newIssueOf body now rand).id = s) ∧
      (body.id = none ∨ body.id = some "" →
        (newIssueOf body now rand).id = generatedId now rand)) ∧
    ((∃ i ∈ db, i.id = chosenId body.id now rand) →
      (postIssues db body now rand).1.code = 500 ∧
      (postIssues db body now rand).1.error = some "Failed to create issue" ∧
      (postIssues db body now rand).2 = db) := by
  constructor
  · intro hfresh
    refine ⟨by rw [postIssues_success db body now rand hd hc hl hu hfresh], ?_, ?_⟩
    · intro s hs hne
      simp [newIssueOf, chosenId, hs, hne]
    · rintro (h | h) <;> simp [newIssueOf, chosenId, h]
  · rintro ⟨i, hi, hid⟩
    have hany : db.any (fun j => j.id == (newIssueOf body now rand).id) = true := by
      rw [List.any_eq_true]
      exact ⟨i, hi, by simp [newIssueOf, hid]⟩
    refine ⟨?_, ?_, ?_⟩ <;> simp [postIssues, hd, hc, hl, hu, hany]

/-- Closed instance of `post_client_id_wins_unless_collision`: into an
empty store the client-chosen id `"CIV-1"` is persisted verbatim, but
against a store already holding `"CIV-1"` the same request fails with
500 and persists nothing. -/
theorem post_client_id_wins_unless_collision_witness :
    (postIssues [] collidingBody 5 "AB0DE").2
      = [] ++ [newIssueOf collidingBody 5 "AB0DE"] ∧
    (newIssueOf collidingBody 5 "AB0DE").id = "CIV-1" ∧
    (postIssues [sampleIssue] collidingBody 5 "AB0DE").1.code = 500 ∧
    (postIssues [sampleIssue] collidingBody 5 "AB0DE").2 = [sampleIssue] := by
  have hfresh := (post_client_id_wins_unless_collision [] collidingBody 5 "AB0DE"
    (by decide) (by decide) (by decide) (by decide)).1 (by decide)
  have hcol := (post_client_id_wins_unless_collision [sampleIssue] collidingBody 5 "AB0DE"
    (by decide) (by decide) (by decide) (by decide)).2
    ⟨sampleIssue, by decide, by decide⟩
  exact ⟨hfresh.1, hfresh.2.1 "CIV-1" rfl (by decide), hcol.1, hcol.2.2⟩

/-- C1 counterexample: on a stored issue, a `PUT` carrying status,
department and remarks succeeds (200) and writes the status, but the
row keeps its old department, old remarks and old timestamp (equal to
creation); and the admin flow, in turn, writes a status that is outside
the allow-list without any validation. So no single update operation
both validates the status and writes all three fields plus the
timestamp. -/
theorem update_writes_all_fields_counterexample :
    (putIssue [sampleIssue] "CIV-1" fullUpdateBody).1.code = 200 ∧
    ((putIssue [sampleIssue] "CIV-1" fullUpdateBody).2.headD sampleIssue).status = "Resolved" ∧
    ((putIssue [sampleIssue] "CIV-1" fullUpdateBody).2.headD sampleIssue).assigned_department
      = some "Water Department" ∧
    ((putIssue [sampleIssue] "CIV-1" fullUpdateBody).2.headD sampleIssue).admin_remarks
      = some "old remark" ∧
    ((putIssue [sampleIssue] "CIV-1" fullUpdateBody).2.headD sampleIssue).updated_at
      = sampleIssue.created_at ∧
    ((handleUpdateIssue [sampleIssue] "CIV-1" bogusEditForm 200).headD sampleIssue).status
      = "Bogus" := by
  decide

/-- C1 (amended): the two update paths split the claimed behavior. The
API `PUT` validates the status against the allow-list but its write
touches only the status column (department, remarks and timestamp are
left as they were, and an out-of-list status is rejected with 400
before any write); the admin flow writes status, department, remarks
and the updated timestamp in one operation, for any status value,
with no validation. -/
theorem update_route_and_admin_flow (db : List Issue)
    (issueId stat dept rem : String) (now : Nat) (hne : stat ≠ "") :
    (stat ∈ validStatuses →
      (putIssue db issueId ⟨some stat, some dept, some rem⟩).2
        = db.map (fun i => if i.id = issueId then { i with status := stat } else i)) ∧
    (stat ∉ validStatuses →
      (putIssue db issueId ⟨some stat, some dept, some rem⟩).1.code = 400 ∧
      (putIssue db issueId ⟨some stat, some dept, some rem⟩).2 = db) ∧
    handleUpdateIssue db issueId ⟨stat, dept, rem⟩ now
      = db.map (fun i =>
          if i.id = issueId then
            { i with status := stat, assigned_department := some dept,
                     admin_remarks := some rem, updated_at := now }
          else i) := by
  refine ⟨?_, ?_, ?_⟩
  · intro hmem
    simp only [putIssue, truthy, hne, decide_not, Bool.not_eq_true']
    simp [hmem]
    split <;> rfl
  · intro hmem
    constructor <;> simp [putIssue, truthy, hne, hmem]
  · simp [handleUpdateIssue]

/-- Closed instance of `update_route_and_admin_flow`: a valid-status
`PUT` rewrites only the status column of the stored row. -/
theorem update_route_and_admin_flow_witness :
    (putIssue [sampleIssue] "CIV-1" ⟨some "Acknowledged", some "Traffic Department", some "note"⟩).2
      = [sampleIssue].map (fun i =>
          if i.id = "CIV-1" then { i with status := "Acknowledged" } else i) :=
  (update_route_and_admin_flow [sampleIssue] "CIV-1" "Acknowledged"
    "Traffic Department" "note" 7 (by decide)).1 (by decide)

/-! ### Bucket-level lemmas about the map aggregation -/

/-- Updating a bucket never changes its key. -/
theorem bumpAreaStats_area (s : AreaStats) (i : Issue) :
    (bumpAreaStats s i).area = s.area := by
  simp only [bumpAreaStats]
  repeat' split
  all_goals simp

/-- Every processed issue bumps its bucket's total by one. -/
theorem bumpAreaStats_total (s : AreaStats) (i : Issue) :
    (bumpAreaStats s i).total = s.total + 1 := by
  simp only [bumpAreaStats]
  repeat' split
  all_goals simp

/-- A bucket that already has coordinates keeps them. -/
theorem bumpAreaStats_coords_mono (s : AreaStats) (i : Issue)
    (h : s.coordinates.isSome = true) :
    (bumpAreaStats s i).coordinates.isSome = true := by
  simp only [bumpAreaStats]
  repeat' split
  all_goals simp_all

/-- Processing an issue that has coordinates leaves its bucket with
coordinates. -/
theorem bumpAreaStats_coords_of_issue (s : AreaStats) (i : Issue)
    (h : i.coordinates.isSome = true) :
    (bumpAreaStats s i).coordinates.isSome = true := by
  simp only [bumpAreaStats]
  repeat' split
  all_goals simp_all [Option.ne_none_iff_isSome]

/-- When the issue's status lies in the allow-list, the status `switch`
bumps exactly one of the three counters, preserving the per-bucket sum
invariant. -/
theorem bumpAreaStats_statusSum (s : AreaStats) (i : Issue)
    (hi : i.status ∈ validStatuses)
    (hs : s.submitted + s.acknowledged + s.resolved = s.total) :
    (bumpAreaStats s i).submitted + (bumpAreaStats s i).acknowledged +
      (bumpAreaStats s i).resolved = (bumpAreaStats s i).total := by
  simp only [validStatuses, List.mem_cons, List.not_mem_nil, or_false] at hi
  rcases hi with hi | hi | hi <;>
    (simp only [bumpAreaStats, hi]
     repeat' split
     all_goals simp_all
     all_goals omega)

/-- One `forEach` step keeps the existing keys, appending the new key
only when it is absent. -/
theorem insertIssue_map_area (acc : List AreaStats) (i : Issue) :
    (insertIssue acc i).map (fun s => s.area) =
      if acc.any (fun s => s.area == extractCityFromLocation i.location) then
        acc.map (fun s => s.area)
      else acc.map (fun s => s.area) ++ [extractCityFromLocation i.location] := by
  simp only [insertIssue]
  split
  · rw [List.map_map]
    apply List.map_congr_left
    intro s _
    simp only [Function.comp_apply]
    split
    · exact bumpAreaStats_area s i
    · rfl
  · simp [bumpAreaStats_area, newAreaStats]

/-- One `forEach` step preserves distinctness of the bucket keys. -/
theorem insertIssue_nodup (acc : List AreaStats) (i : Issue)
    (h : (acc.map (fun s => s.area)).Nodup) :
    ((insertIssue acc i).map (fun s => s.area)).Nodup := by
  rw [insertIssue_map_area]
  split
  · exact h
  · rename_i hany
    have hmem : extractCityFromLocation i.location ∉ acc.map (fun s => s.area) := by
      simp only [List.any_eq_true, beq_iff_eq] at hany
      push_neg at hany
      simp only [List.mem_map, not_exists]
      rintro s ⟨hs, harea⟩
      exact hany s hs harea
    simp [List.nodup_append, h, hmem]

/-- Updating the unique matching bucket raises the sum of totals by
exactly one. -/
theorem map_bump_totals (i : Issue) (key : String) :
    ∀ (l : List AreaStats), (l.map (fun s => s.area)).Nodup →
      l.any (fun s => s.area == key) = true →
      ((l.map (fun s => if s.area == key then bumpAreaStats s i else s)).map
          (fun s => s.total)).sum
        = ((l.map (fun s => s.total)).sum) + 1
  | [], _, hany => by simp at hany
  | s :: t, hnd, hany => by
    rw [List.map_cons, List.nodup_cons] at hnd
    by_cases hs : s.area = key
    · have hnotin : key ∉ t.map (fun b => b.area) := by
        rw [← hs]
        exact hnd.1
      have htail : t.map (fun b => if b.area == key then bumpAreaStats b i else b) = t := by
        have hpt : ∀ b ∈ t, (if b.area == key then bumpAreaStats b i else b) = b := by
          intro b hb
          have hbk : ¬(b.area = key) := fun hb2 =>
            hnotin (List.mem_map.mpr ⟨b, hb, hb2⟩)
          simp [hbk]
        exact (List.map_congr_left hpt).trans (List.map_id t)
      have hif : (if s.area == key then bumpAreaStats s i else s) = bumpAreaStats s i := by
        simp [hs]
      rw [List.map_cons, List.map_cons, List.sum_cons, List.map_cons, List.sum_cons,
        htail, hif, bumpAreaStats_total]
      omega
    · have hany2 : t.any (fun b => b.area == key) = true := by
        simpa [List.any_cons, hs] using hany
      have ih := map_bump_totals i key t hnd.2 hany2
      have hif : (if s.area == key then bumpAreaStats s i else s) = s := by
        simp [hs]
      rw [List.map_cons, List.map_cons, List.sum_cons, List.map_cons, List.sum_cons,
        hif, ih]
      omega

/-- One `forEach` step raises the sum of bucket totals by one. -/
theorem insertIssue_totals (acc : List AreaStats) (i : Issue)
    (hnd : (acc.map (fun s => s.area)).Nodup) :
    ((insertIssue acc i).map (fun s => s.total)).sum
      = ((acc.map (fun s => s.total)).sum) + 1 := by
  simp only [insertIssue]
  split
  · rename_i hany
    exact map_bump_totals i (extractCityFromLocation i.location) acc hnd hany
  · simp [bumpAreaStats_total, newAreaStats]

/-- One `forEach` step preserves the per-bucket status-sum invariant. -/
theorem insertIssue_statusSum (acc : List AreaStats) (i : Issue)
    (hi : i.status ∈ validStatuses)
    (h : ∀ b ∈ acc, b.submitted + b.acknowledged + b.resolved = b.total) :
    ∀ b ∈ insertIssue acc i,
      b.submitted + b.acknowledged + b.resolved = b.total := by
  intro b hb
  simp only [insertIssue] at hb
  split at hb
  · rcases List.mem_map.mp hb with ⟨a, ha, rfl⟩
    split
    · exact bumpAreaStats_statusSum a i hi (h a ha)
    · exact h a ha
  · rcases List.mem_append.mp hb with hb | hb
    · exact h b hb
    · rcases List.mem_singleton.mp hb with rfl
      exact bumpAreaStats_statusSum _ i hi (by simp [newAreaStats])

/-- One `forEach` step preserves "every bucket has coordinates" when
the processed issue has coordinates. -/
theorem insertIssue_coords (acc : List AreaStats) (i : Issue)
    (hi : i.coordinates.isSome = true)
    (h : ∀ b ∈ acc, b.coordinates.isSome = true) :
    ∀ b ∈ insertIssue acc i, b.coordinates.isSome = true := by
  intro b hb
  simp only [insertIssue] at hb
  split at hb
  · rcases List.mem_map.mp hb with ⟨a, ha, rfl⟩
    split
    · exact bumpAreaStats_coords_mono a i (h a ha)
    · exact h a ha
  · rcases List.mem_append.mp hb with hb | hb
    · exact h b hb
    · rcases List.mem_singleton.mp hb with rfl
      exact bumpAreaStats_coords_of_issue _ i hi

/-- After one `forEach` step on an issue with coordinates, the bucket
keyed by that issue's area exists and has coordinates. -/
theorem insertIssue_mem_self (acc : List AreaStats) (i : Issue)
    (hi : i.coordinates.isSome = true) :
    ∃ b ∈ insertIssue acc i,
      b.area = extractCityFromLocation i.location ∧
      b.coordinates.isSome = true := by
  simp only [insertIssue]
  split
  · rename_i hany
    rcases List.any_eq_true.mp hany with ⟨s, hs, harea⟩
    refine ⟨bumpAreaStats s i, ?_, ?_, bumpAreaStats_coords_of_issue s i hi⟩
    · exact List.mem_map.mpr ⟨s, hs, by simp [harea]⟩
    · rw [bumpAreaStats_area]
      exact beq_iff_eq.mp harea
  · refine ⟨bumpAreaStats (newAreaStats (extractCityFromLocation i.location) i.coordinates) i,
      ?_, ?_, bumpAreaStats_coords_of_issue _ i hi⟩
    · simp
    · rw [bumpAreaStats_area]
      rfl

/-- A keyed bucket with coordinates survives every later `forEach`
step. -/
theorem insertIssue_mem_persist (acc : List AreaStats) (j : Issue) (k : String)
    (h : ∃ b ∈ acc, b.area = k ∧ b.coordinates.isSome = true) :
    ∃ b ∈ insertIssue acc j, b.area = k ∧ b.coordinates.isSome = true := by
  rcases h with ⟨b, hb, hk, hc⟩
  simp only [insertIssue]
  split
  · by_cases hmatch : b.area = extractCityFromLocation j.location
    · refine ⟨bumpAreaStats b j, List.mem_map.mpr ⟨b, hb, by simp [hmatch]⟩, ?_,
        bumpAreaStats_coords_mono b j hc⟩
      rw [bumpAreaStats_area, hk]
    · exact ⟨b, List.mem_map.mpr ⟨b, hb, by simp [hmatch]⟩, hk, hc⟩
  · exact ⟨b, List.mem_append.mpr (Or.inl hb), hk, hc⟩

/-- Over the whole `forEach` loop: bucket keys stay distinct and the
sum of bucket totals grows by exactly the number of processed issues. -/
theorem foldl_insertIssue_invariants :
    ∀ (l : List Issue) (acc : List AreaStats),
      (acc.map (fun s => s.area)).Nodup →
      ((l.foldl insertIssue acc).map (fun s => s.area)).Nodup ∧
      ((l.foldl insertIssue acc).map (fun s => s.total)).sum
        = ((acc.map (fun s => s.total)).sum) + l.length
  | [], _, h => ⟨h, by simp⟩
  | i :: t, acc, h => by
    rw [List.foldl_cons]
    have h1 := insertIssue_nodup acc i h
    have ih := foldl_insertIssue_invariants t (insertIssue acc i) h1
    refine ⟨ih.1, ?_⟩
    rw [ih.2, insertIssue_totals acc i h]
    simp only [List.length_cons]
    omega

/-- The per-bucket status-sum invariant holds after the whole loop. -/
theorem foldl_statusSum :
    ∀ (l : List Issue) (acc : List AreaStats),
      (∀ i ∈ l, i.status ∈ validStatuses) →
      (∀ b ∈ acc, b.submitted + b.acknowledged + b.resolved = b.total) →
      ∀ b ∈ l.foldl insertIssue acc,
        b.submitted + b.acknowledged + b.resolved = b.total
  | [], _, _, h => by simpa using h
  | i :: t, acc, hl, h => by
    rw [List.foldl_cons]
    exact foldl_statusSum t _ (fun j hj => hl j (List.mem_cons_of_mem i hj))
      (insertIssue_statusSum acc i (hl i (List.mem_cons_self i t)) h)

/-- When every processed issue has coordinates, so does every bucket. -/
theorem foldl_coords :
    ∀ (l : List Issue) (acc : List AreaStats),
      (∀ i ∈ l, i.coordinates.isSome = true) →
      (∀ b ∈ acc, b.coordinates.isSome = true) →
      ∀ b ∈ l.foldl insertIssue acc, b.coordinates.isSome = true
  | [], _, _, h => by simpa using h
  | i :: t, acc, hl, h => by
    rw [List.foldl_cons]
    exact foldl_coords t _ (fun j hj => hl j (List.mem_cons_of_mem i hj))
      (insertIssue_coords acc i (hl i (List.mem_cons_self i t)) h)

/-- A keyed bucket with coordinates survives the rest of the loop. -/
theorem foldl_mem_persist :
    ∀ (l : List Issue) (acc : List AreaStats) (k : String),
      (∃ b ∈ acc, b.area = k ∧ b.coordinates.isSome = true) →
      ∃ b ∈ l.foldl insertIssue acc, b.area = k ∧ b.coordinates.isSome = true
  | [], _, _, h => by simpa using h
  | j :: t, acc, k, h => by
    rw [List.foldl_cons]
    exact foldl_mem_persist t _ k (insertIssue_mem_persist acc j k h)

/-- Every processed issue with coordinates ends up represented by a
bucket keyed by its extracted area, and that bucket has coordinates. -/
theorem foldl_mem_area :
    ∀ (l : List Issue) (acc : List AreaStats) (i : Issue),
      i ∈ l → i.coordinates.isSome = true →
      ∃ b ∈ l.foldl insertIssue acc,
        b.area = extractCityFromLocation i.location ∧ b.coordinates.isSome = true
  | [], _, i, hi, _ => absurd hi (List.not_mem_nil i)
  | j :: t, acc, i, hi, hc => by
    rw [List.foldl_cons]
    rcases List.mem_cons.mp hi with rfl | hi2
    · exact foldl_mem_persist t _ _ (insertIssue_mem_self acc i hc)
    · exact foldl_mem_area t (insertIssue acc j) i hi2 hc

/-- A bucket of the loop that has coordinates appears (with its
percentages) in the final `areaDataArray`. -/
theorem mem_processAreaData_of_fold (issues : List Issue) (b : AreaStats)
    (hb : b ∈ issues.foldl insertIssue []) (hc : b.coordinates.isSome = true) :
    toAreaData b ∈ processAreaData issues := by
  simp only [processAreaData, List.mem_filter]
  exact ⟨List.mem_map.mpr ⟨b, hb, rfl⟩, by simpa [toAreaData] using hc⟩

/-- Every produced area datum is the percentage view of one of the
loop's buckets. -/
theorem processAreaData_stats_mem (issues : List Issue) (a : AreaData)
    (ha : a ∈ processAreaData issues) :
    a.stats ∈ issues.foldl insertIssue [] ∧ a = toAreaData a.stats := by
  simp only [processAreaData, List.mem_filter] at ha
  rcases List.mem_map.mp ha.1 with ⟨b, hb, rfl⟩
  exact ⟨hb, rfl⟩

/-- C4 counterexample: two issues of the same area, only one of which
has coordinates. The single produced bucket has total 2, yet only one
input issue has coordinates, so the sum of produced totals differs
from the count of issues with coordinates. -/
theorem area_totals_counterexample :
    ((processAreaData [issueWithCoords, issueNoCoords]).map
        (fun a => a.stats.total)).sum = 2 ∧
    ([issueWithCoords, issueNoCoords].filter
        (fun i => i.coordinates.isSome)).length = 1 := by
  decide

/-- C4 (amended): when every input issue has coordinates, the sum of
the produced bucket totals equals the number of issues with
coordinates (without that restriction a bucket also counts the
coordinate-less issues of its area); and within each produced bucket
the submitted + acknowledged + resolved counters equal the bucket's
total whenever every status is in the allow-list. -/
theorem area_aggregation_sums (issues : List Issue)
    (hcoords : ∀ i ∈ issues, i.coordinates.isSome = true)
    (hstatus : ∀ i ∈ issues, i.status ∈ validStatuses) :
    ((processAreaData issues).map (fun a => a.stats.total)).sum
      = (issues.filter (fun i => i.coordinates.isSome)).length ∧
    ∀ a ∈ processAreaData issues,
      a.stats.submitted + a.stats.acknowledged + a.stats.resolved
        = a.stats.total := by
  have hfold := foldl_insertIssue_invariants issues [] (by simp)
  have hcoordsAll : ∀ b ∈ issues.foldl insertIssue [], b.coordinates.isSome = true :=
    foldl_coords issues [] hcoords (by simp)
  constructor
  · have hfilter_issues : issues.filter (fun i => i.coordinates.isSome) = issues :=
      List.filter_eq_self.mpr (fun i hi => hcoords i hi)
    have hfilter_areas :
        ((issues.foldl insertIssue []).map toAreaData).filter
            (fun a => a.stats.coordinates.isSome)
          = (issues.foldl insertIssue []).map toAreaData := by
      apply List.filter_eq_self.mpr
      intro a ha
      rcases List.mem_map.mp ha with ⟨b, hb, rfl⟩
      simpa [toAreaData] using hcoordsAll b hb
    rw [processAreaData, hfilter_areas, hfilter_issues, List.map_map]
    have hcomp : ((fun a => a.stats.total) ∘ toAreaData)
        = (fun s : AreaStats => s.total) := by
      funext s
      rfl
    rw [hcomp, hfold.2]
    simp
  · intro a ha
    have hmem := processAreaData_stats_mem issues a ha
    exact foldl_statusSum issues [] hstatus (by simp) a.stats hmem.1

/-- Closed instance of `area_aggregation_sums` on five all-coordinate
issues of one area. -/
theorem area_aggregation_sums_witness :
    ((processAreaData fortyPercentIssues).map (fun a => a.stats.total)).sum
      = (fortyPercentIssues.filter (fun i => i.coordinates.isSome)).length :=
  (area_aggregation_sums fortyPercentIssues (by decide) (by decide)).1

/-- C5 counterexample: an area whose resolution rate is exactly 40%
(five issues, two resolved) is colored red `#ef4444` by the dashboard,
not yellow: the code's band test is strictly `> 40`. -/
theorem area_color_at_forty_counterexample :
    (processAreaData fortyPercentIssues).map (fun a => a.resolvedPercentage)
      = [(40 : ℚ)] ∧
    (processAreaData fortyPercentIssues).map (fun a => getAreaColor a "all")
      = ["#ef4444"] := by
  have h : processAreaData fortyPercentIssues = [toAreaData fortyPercentStats] := by
    rfl
  rw [h]
  constructor
  · simp only [List.map_cons, List.map_nil, toAreaData, fortyPercentStats, percentage]
    norm_num
  · simp only [List.map_cons, List.map_nil, toAreaData, fortyPercentStats, percentage,
      getAreaColor]
    norm_num

/-- C5 (amended): in the `'all'` view the marker color is green for a
resolution rate strictly above 70, yellow for a rate strictly above 40
and at most 70, and red otherwise — so exactly 70.0 is yellow, but
exactly 40.0 is red, not yellow. -/
theorem area_color_thresholds (a : AreaData) :
    (70 < a.resolvedPercentage → getAreaColor a "all" = "#10b981") ∧
    (40 < a.resolvedPercentage → a.resolvedPercentage ≤ 70 →
      getAreaColor a "all" = "#fbbf24") ∧
    (a.resolvedPercentage ≤ 40 → getAreaColor a "all" = "#ef4444") := by
  refine ⟨?_, ?_, ?_⟩
  · intro h
    simp [getAreaColor, h]
  · intro h1 h2
    simp [getAreaColor, h1, not_lt.mpr h2]
  · intro h
    have h70 : ¬(70 < a.resolvedPercentage) := not_lt.mpr (h.trans (by norm_num))
    have h40 : ¬(40 < a.resolvedPercentage) := not_lt.mpr h
    simp [getAreaColor, h70, h40]

/-- Closed instance of `area_color_thresholds`: an area at exactly a
70% resolution rate is yellow. -/
theorem area_color_thresholds_witness :
    getAreaColor areaAtSeventy "all" = "#fbbf24" :=
  (area_color_thresholds areaAtSeventy).2.1 (by norm_num [areaAtSeventy])
    (by norm_num [areaAtSeventy])

/-- C8 counterexample: for the location `"a, b, c"` the derived key is
`"a"` — neither the (trimmed) second-to-last comma token `"b"` (it is
too short for the code's `length > 2` guard) nor the first 20
characters of the location string. -/
theorem extract_city_counterexample :
    extractCityFromLocation "a, b, c" = "a" ∧
    trimString ((splitOnComma "a, b, c").getD
        ((splitOnComma "a, b, c").length - 2) "") = "b" ∧
    takePrefix "a, b, c" 20 = "a, b, c" ∧
    ("a" : String) ≠ "b" ∧
    ("a" : String) ≠ "a, b, c" := by
  decide

/-- C8 (amended): the area key of a non-empty location is the trimmed
second-to-last comma token only when the location has at least two
comma parts and that trimmed token is longer than 2 characters;
otherwise it falls back to the first 20 characters of the trimmed
first comma part (or `'Unknown'` when that is empty); and every input
issue with coordinates is represented by a produced bucket keyed by
this derivation of its location. -/
theorem area_key_characterization (loc : String) (issues : List Issue) (i : Issue)
    (hloc : loc ≠ "") (hi : i ∈ issues) (hc : i.coordinates.isSome = true) :
    (1 < (splitOnComma loc).length →
      2 < (trimString ((splitOnComma loc).getD
            ((splitOnComma loc).length - 2) "")).length →
      extractCityFromLocation loc
        = trimString ((splitOnComma loc).getD ((splitOnComma loc).length - 2) "")) ∧
    ((splitOnComma loc).length ≤ 1 ∨
        (trimString ((splitOnComma loc).getD
            ((splitOnComma loc).length - 2) "")).length ≤ 2 →
      extractCityFromLocation loc = locationFallback (splitOnComma loc)) ∧
    ∃ a ∈ processAreaData issues,
      a.stats.area = extractCityFromLocation i.location := by
  refine ⟨?_, ?_, ?_⟩
  · intro h1 h2
    have hne : trimString ((splitOnComma loc).getD
        ((splitOnComma loc).length - 2) "") ≠ "" := by
      intro he
      rw [he] at h2
      simp at h2
    simp only [List.getD_eq_getElem?_getD] at h2 hne
    simp [extractCityFromLocation, hloc, h1, h2, hne,
      List.getD_eq_getElem?_getD]
  · rintro (h | h)
    · have h1 : ¬(1 < (splitOnComma loc).length) := by omega
      simp [extractCityFromLocation, hloc, h1]
    · by_cases h1 : 1 < (splitOnComma loc).length
      · have h2 : ¬(2 < (trimString ((splitOnComma loc).getD
            ((splitOnComma loc).length - 2) "")).length) := by omega
        simp only [List.getD_eq_getElem?_getD] at h2
        simp [extractCityFromLocation, hloc, h1, h2,
          List.getD_eq_getElem?_getD]
      · simp [extractCityFromLocation, hloc, h1]
  · rcases foldl_mem_area issues [] i hi hc with ⟨b, hb, hbarea, hbc⟩
    exact ⟨toAreaData b, mem_processAreaData_of_fold issues b hb hbc, hbarea⟩

/-- Closed instance of `area_key_characterization`: the specification's
example location keys to its trimmed second-to-last comma token, and a
coordinate-bearing issue at that location produces a bucket with that
key. -/
theorem area_key_characterization_witness :
    extractCityFromLocation "5th Ave, Springfield, IL"
      = trimString ((splitOnComma "5th Ave, Springfield, IL").getD
          ((splitOnComma "5th Ave, Springfield, IL").length - 2) "") ∧
    ∃ a ∈ processAreaData fortyPercentIssues,
      a.stats.area = extractCityFromLocation issueF1.location := by
  have h := area_key_characterization "5th Ave, Springfield, IL"
    fortyPercentIssues issueF1 (by decide) (by decide) (by decide)
  exact ⟨h.1 (by decide) (by decide), h.2.2⟩

end CivicReporter
